import Mathlib

/-!
Shallow embedding of the Irrlicht OpenGL3 driver render-state machine and
fixed-pipeline material callbacks, translated from
`src/source/Irrlicht/OpenGL/FixedPipelineRenderer.cpp` (which concatenates the
material-callback file and the driver core).  GPU API calls and material
renderer callbacks are modelled as events appended to a trace; mutable driver
fields become explicit state records.  32-bit machine integers that the code
only compares for equality are modelled as `Nat`; `f32` quantities that take
part in arithmetic are modelled as exact rationals.
-/

namespace IrrVideo

/-! ## Blend factor and alpha source constants

Values follow the `E_BLEND_FACTOR` and `E_ALPHA_SOURCE` enumerations
(EBlendModes.h / SMaterial.h).  The C++ stores these in 4-bit fields of a
packed parameter, so they are kept as `Nat`. -/

def EBF_ZERO : Nat := 0

def EBF_ONE : Nat := 1

def EBF_DST_COLOR : Nat := 2

def EBF_ONE_MINUS_DST_COLOR : Nat := 3

def EBF_SRC_COLOR : Nat := 4

def EBF_ONE_MINUS_SRC_COLOR : Nat := 5

def EBF_SRC_ALPHA : Nat := 6

def EBF_ONE_MINUS_SRC_ALPHA : Nat := 7

def EBF_DST_ALPHA : Nat := 8

def EBF_ONE_MINUS_DST_ALPHA : Nat := 9

def EBF_SRC_ALPHA_SATURATE : Nat := 10

def EAS_NONE : Nat := 0

def EAS_VERTEX_COLOR : Nat := 1

def EAS_TEXTURE : Nat := 2

/-- Modelled from the spec: `textureBlendFunc_hasAlpha` (declared in
SMaterial.h, which is not among this repository's source files) decides
whether a blend factor references a per-pixel alpha source; those are exactly
the five factors built from source or destination alpha. -/
def textureBlendFunc_hasAlpha (factor : Nat) : Bool :=
  factor = EBF_SRC_ALPHA || factor = EBF_ONE_MINUS_SRC_ALPHA ||
  factor = EBF_DST_ALPHA || factor = EBF_ONE_MINUS_DST_ALPHA ||
  factor = EBF_SRC_ALPHA_SATURATE

/-- The six fields packed into the `MaterialTypeParam` of a one-texture-blend
material. -/
structure BlendParams where
  srcRGBFact : Nat
  dstRGBFact : Nat
  srcAlphaFact : Nat
  dstAlphaFact : Nat
  modulate : Nat
  alphaSource : Nat
  deriving DecidableEq, Repr

/-- Modelled from the spec: `unpack_textureBlendFuncSeparate` (SMaterial.h, not
among this repository's source files) — the deterministic unpacking rule reads
4-bit fields out of the bit pattern of the packed parameter: the destination
RGB factor occupies bits 0-3, the source RGB factor bits 4-7, the destination
alpha factor bits 8-11, the source alpha factor bits 12-15, the modulate
function bits 16-19 and the alpha source bits 20-23.  The C++ takes the bit
pattern of an `f32`; the model works on that 32-bit pattern directly. -/
def unpack_textureBlendFuncSeparate (param : Nat) : BlendParams where
  srcRGBFact := param / 16 % 16
  dstRGBFact := param % 16
  srcAlphaFact := param / 4096 % 16
  dstAlphaFact := param / 256 % 16
  modulate := param / 65536 % 16
  alphaSource := param / 1048576 % 16

/-- Modelled from the spec: `pack_textureBlendFuncSeparate` (SMaterial.h), the
packing rule inverse to the unpacking rule above. -/
def pack_textureBlendFuncSeparate
    (srcRGBFact dstRGBFact srcAlphaFact dstAlphaFact modulate alphaSource : Nat) : Nat :=
  alphaSource * 1048576 + modulate * 65536 + srcAlphaFact * 4096 +
    dstAlphaFact * 256 + srcRGBFact * 16 + dstRGBFact

theorem unpack_pack_textureBlendFuncSeparate
    (s d sa da m a : Nat) (hs : s < 16) (hd : d < 16) (hsa : sa < 16)
    (hda : da < 16) (hm : m < 16) (ha : a < 16) :
    unpack_textureBlendFuncSeparate (pack_textureBlendFuncSeparate s d sa da m a) =
      ⟨s, d, sa, da, m, a⟩ := by
  unfold unpack_textureBlendFuncSeparate pack_textureBlendFuncSeparate
  refine (BlendParams.mk.injEq _ _ _ _ _ _ _ _ _ _ _ _).mpr ?_
  refine ⟨?_, ?_, ?_, ?_, ?_, ?_⟩ <;> omega

/-! ## Material value model

`video::SMaterial`, restricted to the fields this driver file reads.  Lean
structural equality on this record models the C++ `SMaterial::operator==`,
which compares all its fields by value except the per-texture filter
parameters (those therefore do not appear here; the driver refreshes them
separately through `setTextureRenderStates` on every render).  The value-
compared fields that none of the embedded operations inspect individually
(colors, depth and culling settings, blend operation and factor, ...) are
folded into the abstract component `otherStateFields`.  `MaterialTypeParam`
is kept as the raw 32-bit pattern of the `f32` field (the C++ reads it back
bitwise with `IR(...)`). -/

structure SMaterial where
  MaterialType : Nat
  MaterialTypeParam : Nat
  Texture0 : Bool
  FogEnable : Bool
  Lighting : Bool
  Wireframe : Bool
  PointCloud : Bool
  otherStateFields : Nat
  deriving DecidableEq, Repr

/-! ## One-texture-blend material callback (`COpenGL3MaterialOneTextureBlendCB`) -/

/-- Cached per-material scalars of `COpenGL3MaterialOneTextureBlendCB`
(the lazily resolved uniform-location integers are omitted; they carry no
information the claims touch). -/
structure COpenGL3MaterialOneTextureBlendCB where
  BlendType : Int
  TextureUsage0 : Int
  deriving DecidableEq, Repr

/-- `COpenGL3MaterialOneTextureBlendCB::OnSetMaterial`
(FixedPipelineRenderer.cpp lines 283-307): unpack the packed blend-function
parameter and classify the blend type. -/
def oneTextureBlendOnSetMaterial (cb : COpenGL3MaterialOneTextureBlendCB)
    (material : SMaterial) : COpenGL3MaterialOneTextureBlendCB :=
  let p := unpack_textureBlendFuncSeparate material.MaterialTypeParam
  let blendType : Int :=
    if textureBlendFunc_hasAlpha p.srcRGBFact || textureBlendFunc_hasAlpha p.dstRGBFact ||
       textureBlendFunc_hasAlpha p.srcAlphaFact || textureBlendFunc_hasAlpha p.dstAlphaFact then
      if p.alphaSource = EAS_VERTEX_COLOR then 1
      else if p.alphaSource = EAS_TEXTURE then 2
      else 0
    else 0
  { cb with
    BlendType := blendType
    TextureUsage0 := if material.Texture0 then 1 else 0 }

/-- C3: for every material whose packed blend-function parameter encodes the
six 4-bit fields, the blend-type selector computed by the one-texture-blend
callback is 1 when some unpacked blend factor references a per-pixel alpha
source and the alpha source is vertex color, 2 when some factor references a
per-pixel alpha source and the alpha source is texture, and 0 otherwise. -/
theorem oneTextureBlend_blendType_classification
    (s d sa da m a : Nat) (hs : s < 16) (hd : d < 16) (hsa : sa < 16)
    (hda : da < 16) (hm : m < 16) (ha : a < 16)
    (cb : COpenGL3MaterialOneTextureBlendCB) (material : SMaterial)
    (hparam : material.MaterialTypeParam = pack_textureBlendFuncSeparate s d sa da m a) :
    (oneTextureBlendOnSetMaterial cb material).BlendType =
      if textureBlendFunc_hasAlpha s || textureBlendFunc_hasAlpha d ||
         textureBlendFunc_hasAlpha sa || textureBlendFunc_hasAlpha da then
        if a = EAS_VERTEX_COLOR then 1 else if a = EAS_TEXTURE then 2 else 0
      else 0 := by
  unfold oneTextureBlendOnSetMaterial
  rw [hparam, unpack_pack_textureBlendFuncSeparate s d sa da m a hs hd hsa hda hm ha]

/-- C3 witness: a parameter encoding srcRGB = SRC_ALPHA,
dstRGB = ONE_MINUS_SRC_ALPHA, alphaSource = TEXTURE yields blend type 2. -/
theorem oneTextureBlend_blendType_witness :
    (oneTextureBlendOnSetMaterial ⟨0, 0⟩
        ⟨0, pack_textureBlendFuncSeparate EBF_SRC_ALPHA EBF_ONE_MINUS_SRC_ALPHA
              EBF_ZERO EBF_ZERO 0 EAS_TEXTURE, true, false, false, false, false, 0⟩).BlendType
      = 2 := by
  rw [oneTextureBlend_blendType_classification EBF_SRC_ALPHA EBF_ONE_MINUS_SRC_ALPHA
        EBF_ZERO EBF_ZERO 0 EAS_TEXTURE (by decide) (by decide) (by decide) (by decide)
        (by decide) (by decide) ⟨0, 0⟩ _ rfl]
  decide

/-! ## 2D image texture coordinates (`COpenGL3DriverBase::draw2DImage`) -/

/-- A texture-coordinate rectangle (`core::rect<f32>`), with exact rational
coordinates in place of `f32`. -/
structure RectF where
  ULx : ℚ
  ULy : ℚ
  LRx : ℚ
  LRy : ℚ
  deriving DecidableEq, Repr

/-- Normalized texture-coordinate computation of
`COpenGL3DriverBase::draw2DImage` (lines 1202-1211): the source rectangle in
pixels is scaled by the reciprocal texture dimensions, and for render-target
textures the two Y source coordinates are exchanged. -/
def draw2DImageTcoords (isRTT : Bool) (srcULx srcULy srcLRx srcLRy : Int)
    (width height : Nat) : RectF :=
  let invW : ℚ := 1 / (width : ℚ)
  let invH : ℚ := 1 / (height : ℚ)
  { ULx := (srcULx : ℚ) * invW
    ULy := ((if isRTT then srcLRy else srcULy : Int) : ℚ) * invH
    LRx := (srcLRx : ℚ) * invW
    LRy := ((if isRTT then srcULy else srcLRy : Int) : ℚ) * invH }

/-- C6: for a render-target texture the computed texture-coordinate rectangle
has its upper and lower Y coordinates exchanged relative to the rectangle
computed for a non-render-target texture from the same source rectangle, and
identical X coordinates. -/
theorem draw2DImage_rtt_flips_tcoords (srcULx srcULy srcLRx srcLRy : Int)
    (width height : Nat) :
    (draw2DImageTcoords true srcULx srcULy srcLRx srcLRy width height).ULy =
      (draw2DImageTcoords false srcULx srcULy srcLRx srcLRy width height).LRy ∧
    (draw2DImageTcoords true srcULx srcULy srcLRx srcLRy width height).LRy =
      (draw2DImageTcoords false srcULx srcULy srcLRx srcLRy width height).ULy ∧
    (draw2DImageTcoords true srcULx srcULy srcLRx srcLRy width height).ULx =
      (draw2DImageTcoords false srcULx srcULy srcLRx srcLRy width height).ULx ∧
    (draw2DImageTcoords true srcULx srcULy srcLRx srcLRy width height).LRx =
      (draw2DImageTcoords false srcULx srcULy srcLRx srcLRy width height).LRx := by
  refine ⟨rfl, rfl, rfl, rfl⟩

/-! ## Base material callback (`COpenGL3MaterialBaseCB`) -/

/-- The shader uniforms the base callback uploads through
`setPixelShaderConstant` in `OnSetConstants`. -/
inductive UniformTag where
  | uWVPMatrix
  | uWVMatrix
  | uNMatrix
  | uFogEnable
  | uFogType
  | uFogColor
  | uFogStart
  | uFogEnd
  | uFogDensity
  | uThickness
  deriving DecidableEq, Repr

/-- State of `COpenGL3MaterialBaseCB` restricted to the fields the embedded
operations branch on.  The cached float-valued uniforms (material colors, fog
parameters, thickness) and the lazily resolved uniform-location integers are
omitted; the corresponding uploads appear as `UniformTag` events.
`FogEnable` is the `s32` the constructor initialises to 0. -/
structure COpenGL3MaterialBaseCB where
  FirstUpdateBase : Bool
  LightEnable : Bool
  FogEnable : Int
  deriving DecidableEq, Repr

/-- `COpenGL3MaterialBaseCB` constructor (lines 16-22). -/
def mkBaseCB : COpenGL3MaterialBaseCB where
  FirstUpdateBase := true
  LightEnable := false
  FogEnable := 0

/-- `COpenGL3MaterialBaseCB::OnSetMaterial` (lines 24-36), restricted to the
retained fields: records whether fog is enabled for the material as 1 or 0. -/
def baseCBOnSetMaterial (cb : COpenGL3MaterialBaseCB) (material : SMaterial) :
    COpenGL3MaterialBaseCB :=
  { cb with
    LightEnable := material.Lighting
    FogEnable := if material.FogEnable then 1 else 0 }

/-- `COpenGL3MaterialBaseCB::OnSetConstants` (lines 38-99): resolves uniform
locations on the first call, always uploads the three matrices, the fog-enable
flag and the thickness, and uploads the five fog uniforms only when the
recorded fog-enable value is nonzero. -/
def baseCBOnSetConstants (cb : COpenGL3MaterialBaseCB) :
    COpenGL3MaterialBaseCB × List UniformTag :=
  ({ cb with FirstUpdateBase := false },
    [UniformTag.uWVPMatrix, UniformTag.uWVMatrix, UniformTag.uNMatrix,
     UniformTag.uFogEnable] ++
    (if cb.FogEnable ≠ 0 then
      [UniformTag.uFogType, UniformTag.uFogColor, UniformTag.uFogStart,
       UniformTag.uFogEnd, UniformTag.uFogDensity]
     else []) ++
    [UniformTag.uThickness])

/-- C9: in every invocation of the base callback's `OnSetConstants` the
fog-enable uniform is uploaded, and each of the fog type, color, start, end
and density uniforms is uploaded exactly when the fog-enable value recorded at
`OnSetMaterial` is nonzero — which is the case exactly when the material the
callback was last set from had fog enabled. -/
theorem baseCB_fog_uniform_uploads (cb : COpenGL3MaterialBaseCB)
    (material : SMaterial) :
    UniformTag.uFogEnable ∈ (baseCBOnSetConstants cb).2 ∧
    (UniformTag.uFogType ∈ (baseCBOnSetConstants cb).2 ↔ cb.FogEnable ≠ 0) ∧
    (UniformTag.uFogColor ∈ (baseCBOnSetConstants cb).2 ↔ cb.FogEnable ≠ 0) ∧
    (UniformTag.uFogStart ∈ (baseCBOnSetConstants cb).2 ↔ cb.FogEnable ≠ 0) ∧
    (UniformTag.uFogEnd ∈ (baseCBOnSetConstants cb).2 ↔ cb.FogEnable ≠ 0) ∧
    (UniformTag.uFogDensity ∈ (baseCBOnSetConstants cb).2 ↔ cb.FogEnable ≠ 0) ∧
    ((baseCBOnSetMaterial cb material).FogEnable ≠ 0 ↔ material.FogEnable = true) := by
  unfold baseCBOnSetConstants baseCBOnSetMaterial
  by_cases h : cb.FogEnable = 0 <;> by_cases hm : material.FogEnable <;> simp [h, hm]

/-! ## Render targets, viewport and buffer clearing

State of the pipeline pieces touched by `setRenderTargetEx` and
`clearBuffers`, together with the cache-handler slots they read and write.
The cache-handler setters (`COpenGLCoreCacheHandler.h` is not among this
repository's source files) are modelled from the spec: each setter compares
the requested value with the cached one, issues the GL call only when they
differ, and leaves the cache holding the requested value. -/

def ECP_ALL : Nat := 15

def ECBF_COLOR : Nat := 1

def ECBF_DEPTH : Nat := 2

def ECBF_STENCIL : Nat := 4

def GL_COLOR_BUFFER_BIT : Nat := 0x4000

def GL_DEPTH_BUFFER_BIT : Nat := 0x100

def GL_STENCIL_BUFFER_BIT : Nat := 0x400

/-- GL calls issued by the render-target and clear paths. -/
inductive GLCall where
  | colorMaskCall (mask : Nat)
  | depthMaskCall (flag : Bool)
  | bindFramebufferCall (fbo : Nat)
  | viewportCall (x y width height : Nat)
  | clearColorCall
  | clearDepthCall
  | clearStencilCall
  | clearCall (mask : Nat)
  | logErrorCall
  | renderTargetUpdateCall
  deriving DecidableEq, Repr

/-- The cache-handler slots read or written on these paths. -/
structure CacheState where
  colorMask : Nat
  depthMask : Bool
  fbo : Nat
  viewport : Nat × Nat × Nat × Nat
  deriving DecidableEq, Repr

/-- Modelled from the spec: `CacheHandler->setColorMask` deduplicates the GL
call and caches the requested mask. -/
def CacheState.setColorMask (cache : CacheState) (mask : Nat) :
    CacheState × List GLCall :=
  if mask ≠ cache.colorMask then
    ({ cache with colorMask := mask }, [GLCall.colorMaskCall mask])
  else (cache, [])

/-- Modelled from the spec: `CacheHandler->setDepthMask` deduplicates the GL
call and caches the requested flag. -/
def CacheState.setDepthMask (cache : CacheState) (flag : Bool) :
    CacheState × List GLCall :=
  if flag ≠ cache.depthMask then
    ({ cache with depthMask := flag }, [GLCall.depthMaskCall flag])
  else (cache, [])

/-- Modelled from the spec: `CacheHandler->setFBO` deduplicates the
framebuffer bind and caches the bound framebuffer name. -/
def CacheState.setFBO (cache : CacheState) (fbo : Nat) :
    CacheState × List GLCall :=
  if fbo ≠ cache.fbo then
    ({ cache with fbo := fbo }, [GLCall.bindFramebufferCall fbo])
  else (cache, [])

/-- Modelled from the spec: `CacheHandler->setViewport` deduplicates the GL
call and caches the viewport rectangle. -/
def CacheState.setViewport (cache : CacheState) (x y width height : Nat) :
    CacheState × List GLCall :=
  if (x, y, width, height) ≠ cache.viewport then
    ({ cache with viewport := (x, y, width, height) },
     [GLCall.viewportCall x y width height])
  else (cache, [])

/-- `E_DRIVER_TYPE` of Irrlicht; this driver reports `EDT_OPENGL3`. -/
inductive E_DRIVER_TYPE where
  | EDT_NULL
  | EDT_SOFTWARE
  | EDT_BURNINGSVIDEO
  | EDT_DIRECT3D9
  | EDT_OPENGL
  | EDT_OGLES1
  | EDT_OGLES2
  | EDT_WEBGL1
  | EDT_OPENGL3
  deriving DecidableEq, Repr

/-- `COpenGL3DriverBase::getDriverType` (lines 2058-2061). -/
def getDriverType : E_DRIVER_TYPE := E_DRIVER_TYPE.EDT_OPENGL3

/-- An `IRenderTarget` as this driver uses it: the driver type it was created
by, its framebuffer object name and its size. -/
structure IRenderTarget where
  driverType : E_DRIVER_TYPE
  bufferID : Nat
  size : Nat × Nat
  deriving DecidableEq, Repr

/-- Driver fields touched by `setRenderTargetEx` and `clearBuffers`. -/
structure RTState where
  cache : CacheState
  ScreenSize : Nat × Nat
  CurrentRenderTargetSize : Nat × Nat
  CurrentRenderTarget : Option IRenderTarget
  Transformation3DChanged : Bool
  ViewPort : Nat × Nat × Nat × Nat
  deriving DecidableEq, Repr

/-- `COpenGL3DriverBase::setViewPortRaw` (lines 2026-2030). -/
def setViewPortRaw (st : RTState) (width height : Nat) : RTState × List GLCall :=
  ({ st with
      cache := (st.cache.setViewport 0 0 width height).1
      ViewPort := (0, 0, width, height) },
   (st.cache.setViewport 0 0 width height).2)

/-- `COpenGL3DriverBase::clearBuffers` (lines 2285-2323): saves the cached
color and depth masks, widens them as needed for the requested clears, issues
the clear, and restores both saved masks. -/
def clearBuffers (st : RTState) (flag : Nat) : RTState × List GLCall :=
  let colorMask := st.cache.colorMask
  let depthMask := st.cache.depthMask
  let colorStep : CacheState × List GLCall :=
    if flag &&& ECBF_COLOR ≠ 0 then
      ((st.cache.setColorMask ECP_ALL).1,
       (st.cache.setColorMask ECP_ALL).2 ++ [GLCall.clearColorCall])
    else (st.cache, [])
  let mask1 := if flag &&& ECBF_COLOR ≠ 0 then GL_COLOR_BUFFER_BIT else 0
  let depthStep : CacheState × List GLCall :=
    if flag &&& ECBF_DEPTH ≠ 0 then
      ((colorStep.1.setDepthMask true).1,
       (colorStep.1.setDepthMask true).2 ++ [GLCall.clearDepthCall])
    else (colorStep.1, [])
  let mask2 := if flag &&& ECBF_DEPTH ≠ 0 then GL_DEPTH_BUFFER_BIT else 0
  let stencilCalls := if flag &&& ECBF_STENCIL ≠ 0 then [GLCall.clearStencilCall] else []
  let mask3 := if flag &&& ECBF_STENCIL ≠ 0 then GL_STENCIL_BUFFER_BIT else 0
  let mask := mask1 ||| mask2 ||| mask3
  let clearCalls := if mask ≠ 0 then [GLCall.clearCall mask] else []
  let restoreColor := depthStep.1.setColorMask colorMask
  let restoreDepth := restoreColor.1.setDepthMask depthMask
  ({ st with cache := restoreDepth.1 },
   colorStep.2 ++ depthStep.2 ++ stencilCalls ++ clearCalls ++
     restoreColor.2 ++ restoreDepth.2)

/-- `COpenGL3DriverBase::setRenderTargetEx` (lines 2241-2283): rejects targets
of a foreign driver type with a logged error; otherwise binds the target's
framebuffer (or the default framebuffer for a null target), sets the raw
viewport, invalidates the cached 3D transforms when the destination size
differs from the previous one, records the current target and clears the
requested buffers. -/
def setRenderTargetEx (st : RTState) (target : Option IRenderTarget)
    (clearFlag : Nat) : Bool × RTState × List GLCall :=
  if ∃ t ∈ target, t.driverType ≠ getDriverType then
    (false, st, [GLCall.logErrorCall])
  else
    let bindStep : RTState × (Nat × Nat) × List GLCall :=
      match target with
      | some t =>
          let vp := setViewPortRaw { st with cache := (st.cache.setFBO t.bufferID).1 }
            t.size.1 t.size.2
          (vp.1, t.size,
           (st.cache.setFBO t.bufferID).2 ++ [GLCall.renderTargetUpdateCall] ++ vp.2)
      | none =>
          let vp := setViewPortRaw { st with cache := (st.cache.setFBO 0).1 }
            st.ScreenSize.1 st.ScreenSize.2
          (vp.1, ((0 : Nat), (0 : Nat)), (st.cache.setFBO 0).2 ++ vp.2)
    let st1 := bindStep.1
    let destSize := bindStep.2.1
    let st2 :=
      if st1.CurrentRenderTargetSize ≠ destSize then
        { st1 with CurrentRenderTargetSize := destSize, Transformation3DChanged := true }
      else st1
    let st3 := { st2 with CurrentRenderTarget := target }
    (true, (clearBuffers st3 clearFlag).1, bindStep.2.2 ++ (clearBuffers st3 clearFlag).2)

theorem setColorMask_colorMask (cache : CacheState) (mask : Nat) :
    (cache.setColorMask mask).1.colorMask = mask := by
  unfold CacheState.setColorMask
  split <;> simp_all

theorem setColorMask_depthMask (cache : CacheState) (mask : Nat) :
    (cache.setColorMask mask).1.depthMask = cache.depthMask := by
  unfold CacheState.setColorMask
  split <;> rfl

theorem setDepthMask_depthMask (cache : CacheState) (flag : Bool) :
    (cache.setDepthMask flag).1.depthMask = flag := by
  unfold CacheState.setDepthMask
  split <;> simp_all

theorem setDepthMask_colorMask (cache : CacheState) (flag : Bool) :
    (cache.setDepthMask flag).1.colorMask = cache.colorMask := by
  unfold CacheState.setDepthMask
  split <;> rfl

theorem setColorMask_fbo (cache : CacheState) (mask : Nat) :
    (cache.setColorMask mask).1.fbo = cache.fbo := by
  unfold CacheState.setColorMask
  split <;> rfl

theorem setDepthMask_fbo (cache : CacheState) (flag : Bool) :
    (cache.setDepthMask flag).1.fbo = cache.fbo := by
  unfold CacheState.setDepthMask
  split <;> rfl

theorem setFBO_fbo (cache : CacheState) (fbo : Nat) :
    (cache.setFBO fbo).1.fbo = fbo := by
  unfold CacheState.setFBO
  split <;> simp_all

theorem setViewport_fbo (cache : CacheState) (x y w h : Nat) :
    (cache.setViewport x y w h).1.fbo = cache.fbo := by
  unfold CacheState.setViewport
  split <;> rfl

theorem clearBuffers_fbo (st : RTState) (flag : Nat) :
    (clearBuffers st flag).1.cache.fbo = st.cache.fbo := by
  unfold clearBuffers
  simp only [setDepthMask_fbo, setColorMask_fbo]
  split <;> split <;> simp [setDepthMask_fbo, setColorMask_fbo]

theorem clearBuffers_ViewPort (st : RTState) (flag : Nat) :
    (clearBuffers st flag).1.ViewPort = st.ViewPort := by
  unfold clearBuffers
  rfl

theorem clearBuffers_CurrentRenderTargetSize (st : RTState) (flag : Nat) :
    (clearBuffers st flag).1.CurrentRenderTargetSize = st.CurrentRenderTargetSize := by
  unfold clearBuffers
  rfl

theorem clearBuffers_Transformation3DChanged (st : RTState) (flag : Nat) :
    (clearBuffers st flag).1.Transformation3DChanged = st.Transformation3DChanged := by
  unfold clearBuffers
  rfl

/-- C10: `clearBuffers` restores the cached color mask and depth mask that it
read at entry, whatever combination of clear flags is requested. -/
theorem clearBuffers_preserves_masks (st : RTState) (flag : Nat) :
    (clearBuffers st flag).1.cache.colorMask = st.cache.colorMask ∧
    (clearBuffers st flag).1.cache.depthMask = st.cache.depthMask := by
  unfold clearBuffers
  constructor
  · simp [setDepthMask_colorMask, setColorMask_colorMask]
  · simp [setDepthMask_depthMask]

/-- C7: setting a render target whose driver type is not this driver's type
only logs an error and returns `false`, leaving the driver state untouched;
setting a null target binds the default framebuffer 0, sets the viewport to
the full screen size and returns `true`. -/
theorem setRenderTargetEx_foreign_rejected_null_restores
    (st : RTState) (t : IRenderTarget) (clearFlag : Nat)
    (h : t.driverType ≠ getDriverType) :
    setRenderTargetEx st (some t) clearFlag = (false, st, [GLCall.logErrorCall]) ∧
    (setRenderTargetEx st none clearFlag).1 = true ∧
    (setRenderTargetEx st none clearFlag).2.1.cache.fbo = 0 ∧
    (setRenderTargetEx st none clearFlag).2.1.ViewPort =
      (0, 0, st.ScreenSize.1, st.ScreenSize.2) := by
  refine ⟨?_, ?_, ?_, ?_⟩
  · have hc : ∃ x ∈ some t, x.driverType ≠ getDriverType := ⟨t, by simp, h⟩
    simp only [setRenderTargetEx, if_pos hc]
  · simp only [setRenderTargetEx]
    rw [if_neg (by simp)]
  · simp only [setRenderTargetEx]
    rw [if_neg (by simp)]
    simp only [clearBuffers_fbo, setViewPortRaw]
    split <;> simp [setViewport_fbo, setFBO_fbo]
  · simp only [setRenderTargetEx]
    rw [if_neg (by simp)]
    simp only [clearBuffers_ViewPort, setViewPortRaw]
    split <;> rfl

/-- The destination render-target size `setRenderTargetEx` computes: the
target's size, or `(0, 0)` for the null (screen) target. -/
def destRenderTargetSize : Option IRenderTarget → Nat × Nat
  | some t => t.size
  | none => (0, 0)

/-- C8: whenever `setRenderTargetEx` succeeds, a destination size different
from the previously current render-target size updates the current size and
sets the 3D-transformation-changed flag, while an unchanged size leaves both
the size and the flag as they were. -/
theorem setRenderTargetEx_size_change_invalidates
    (st : RTState) (target : Option IRenderTarget) (clearFlag : Nat)
    (h : ∀ t ∈ target, t.driverType = getDriverType) :
    (setRenderTargetEx st target clearFlag).1 = true ∧
    (st.CurrentRenderTargetSize ≠ destRenderTargetSize target →
       (setRenderTargetEx st target clearFlag).2.1.CurrentRenderTargetSize =
         destRenderTargetSize target ∧
       (setRenderTargetEx st target clearFlag).2.1.Transformation3DChanged = true) ∧
    (st.CurrentRenderTargetSize = destRenderTargetSize target →
       (setRenderTargetEx st target clearFlag).2.1.CurrentRenderTargetSize =
         st.CurrentRenderTargetSize ∧
       (setRenderTargetEx st target clearFlag).2.1.Transformation3DChanged =
         st.Transformation3DChanged) := by
  have hguard : ¬ ∃ x ∈ target, x.driverType ≠ getDriverType := by
    rcases target with _ | t
    · simp
    · simpa using h t (by simp)
  refine ⟨?_, ?_, ?_⟩
  · simp only [setRenderTargetEx, if_neg hguard]
  · intro hne
    rcases target with _ | t <;>
    · simp only [setRenderTargetEx, if_neg hguard, clearBuffers_CurrentRenderTargetSize,
        clearBuffers_Transformation3DChanged, setViewPortRaw, destRenderTargetSize] at hne ⊢
      rw [if_pos (by simpa using hne)]
      simp
  · intro heq
    rcases target with _ | t <;>
    · simp only [setRenderTargetEx, if_neg hguard, clearBuffers_CurrentRenderTargetSize,
        clearBuffers_Transformation3DChanged, setViewPortRaw, destRenderTargetSize] at heq ⊢
      rw [if_neg (by simpa using heq)]
      exact ⟨rfl, rfl⟩

/-- A concrete driver state used by the closed instantiations below. -/
def rtStateEx : RTState where
  cache := ⟨15, true, 0, (0, 0, 800, 600)⟩
  ScreenSize := (800, 600)
  CurrentRenderTargetSize := (0, 0)
  CurrentRenderTarget := none
  Transformation3DChanged := false
  ViewPort := (0, 0, 800, 600)

/-- C7 witness: a target created by the plain OpenGL driver is rejected with
the driver state unchanged, and the null target restores the screen. -/
theorem setRenderTargetEx_foreign_rejected_witness :
    setRenderTargetEx rtStateEx (some ⟨E_DRIVER_TYPE.EDT_OPENGL, 5, (128, 128)⟩) 0 =
      (false, rtStateEx, [GLCall.logErrorCall]) ∧
    (setRenderTargetEx rtStateEx none 0).1 = true ∧
    (setRenderTargetEx rtStateEx none 0).2.1.cache.fbo = 0 ∧
    (setRenderTargetEx rtStateEx none 0).2.1.ViewPort = (0, 0, 800, 600) :=
  setRenderTargetEx_foreign_rejected_null_restores rtStateEx
    ⟨E_DRIVER_TYPE.EDT_OPENGL, 5, (128, 128)⟩ 0 (by decide)

/-- C8 witness: switching from the screen to an owned 128x128 target updates
the current render-target size and marks the 3D transforms dirty. -/
theorem setRenderTargetEx_size_change_witness :
    (setRenderTargetEx rtStateEx (some ⟨E_DRIVER_TYPE.EDT_OPENGL3, 5, (128, 128)⟩) 0).2.1.CurrentRenderTargetSize
        = (128, 128) ∧
    (setRenderTargetEx rtStateEx (some ⟨E_DRIVER_TYPE.EDT_OPENGL3, 5, (128, 128)⟩) 0).2.1.Transformation3DChanged
        = true :=
  (setRenderTargetEx_size_change_invalidates rtStateEx
      (some ⟨E_DRIVER_TYPE.EDT_OPENGL3, 5, (128, 128)⟩) 0
      (by intro t ht; cases ht; rfl)).2.1 (by decide)

/-! ## Hardware buffer links (`SHWBufferLink_opengl`) -/

/-- `scene::E_HARDWARE_MAPPING`. -/
inductive E_HARDWARE_MAPPING where
  | EHM_NEVER
  | EHM_STATIC
  | EHM_DYNAMIC
  | EHM_STREAM
  deriving DecidableEq, Repr

/-- `video::E_INDEX_TYPE`. -/
inductive E_INDEX_TYPE where
  | EIT_16BIT
  | EIT_32BIT
  deriving DecidableEq, Repr

def GL_STATIC_DRAW : Nat := 0x88E4

def GL_DYNAMIC_DRAW : Nat := 0x88E8

/-- The `scene::IMeshBuffer` fields the buffer-update path reads.
`vertexPitch` stands for `getVertexPitchFromType(mb->getVertexType())`. -/
structure IMeshBuffer where
  vertexCount : Nat
  vertexPitch : Nat
  indexCount : Nat
  indexType : E_INDEX_TYPE
  changedIdVertex : Nat
  changedIdIndex : Nat
  mappingHintVertex : E_HARDWARE_MAPPING
  mappingHintIndex : E_HARDWARE_MAPPING
  deriving DecidableEq, Repr

/-- `SHWBufferLink` (with the `SHWBufferLink_opengl` extension fields): the
cached changed-ID and mapping hint per side, and the GL buffer object name and
byte size per side (name 0 meaning "never allocated"). -/
structure SHWBufferLink where
  ChangedID_Vertex : Nat
  ChangedID_Index : Nat
  Mapped_Vertex : E_HARDWARE_MAPPING
  Mapped_Index : E_HARDWARE_MAPPING
  vbo_verticesID : Nat
  vbo_indicesID : Nat
  vbo_verticesSize : Nat
  vbo_indicesSize : Nat
  deriving DecidableEq, Repr

/-- GL buffer-object calls issued by the update path. -/
inductive BufferCall where
  | genBuffer (id : Nat)
  | bufferDataVertices (size usage : Nat)
  | bufferSubDataVertices (size : Nat)
  | bufferDataIndices (size usage : Nat)
  | bufferSubDataIndices (size : Nat)
  deriving DecidableEq, Repr

/-- GL buffer-name allocation state: `glGenBuffers` hands out fresh nonzero
names, modelled as a counter. -/
structure GLNameState where
  lastBufferName : Nat
  deriving DecidableEq, Repr

/-- `COpenGL3DriverBase::updateVertexHardwareBuffer` (lines 853-898):
allocates the buffer object on first use, reallocates with a usage hint when
the stored buffer is too small, otherwise replaces the subregion.  Exactly one
upload (`bufferData` or `bufferSubData`) is issued per call. -/
def updateVertexHardwareBuffer (g : GLNameState) (mb : IMeshBuffer)
    (hw : SHWBufferLink) : GLNameState × SHWBufferLink × List BufferCall :=
  let bufferSize := mb.vertexPitch * mb.vertexCount
  let allocStep : GLNameState × SHWBufferLink × List BufferCall × Bool :=
    if hw.vbo_verticesID = 0 then
      (⟨g.lastBufferName + 1⟩,
       { hw with vbo_verticesID := g.lastBufferName + 1 },
       [BufferCall.genBuffer (g.lastBufferName + 1)], true)
    else if hw.vbo_verticesSize < bufferSize then (g, hw, [], true)
    else (g, hw, [], false)
  let g1 := allocStep.1
  let hw1 := allocStep.2.1
  let genCalls := allocStep.2.2.1
  if allocStep.2.2.2 = false then
    (g1, hw1, genCalls ++ [BufferCall.bufferSubDataVertices bufferSize])
  else
    (g1, { hw1 with vbo_verticesSize := bufferSize },
     genCalls ++ [BufferCall.bufferDataVertices bufferSize
       (if hw1.Mapped_Vertex = E_HARDWARE_MAPPING.EHM_STATIC then GL_STATIC_DRAW
        else GL_DYNAMIC_DRAW)])

/-- The byte width of one index of the given type (`sizeof(u16)` or
`sizeof(u32)` in `updateIndexHardwareBuffer`). -/
def indexSizeOf : E_INDEX_TYPE → Nat
  | E_INDEX_TYPE.EIT_16BIT => 2
  | E_INDEX_TYPE.EIT_32BIT => 4

/-- `COpenGL3DriverBase::updateIndexHardwareBuffer` (lines 901-961), the index
side of the update path. -/
def updateIndexHardwareBuffer (g : GLNameState) (mb : IMeshBuffer)
    (hw : SHWBufferLink) : GLNameState × SHWBufferLink × List BufferCall :=
  let bufferSize := mb.indexCount * indexSizeOf mb.indexType
  let allocStep : GLNameState × SHWBufferLink × List BufferCall × Bool :=
    if hw.vbo_indicesID = 0 then
      (⟨g.lastBufferName + 1⟩,
       { hw with vbo_indicesID := g.lastBufferName + 1 },
       [BufferCall.genBuffer (g.lastBufferName + 1)], true)
    else if hw.vbo_indicesSize < bufferSize then (g, hw, [], true)
    else (g, hw, [], false)
  let g1 := allocStep.1
  let hw1 := allocStep.2.1
  let genCalls := allocStep.2.2.1
  if allocStep.2.2.2 = false then
    (g1, hw1, genCalls ++ [BufferCall.bufferSubDataIndices bufferSize])
  else
    (g1, { hw1 with vbo_indicesSize := bufferSize },
     genCalls ++ [BufferCall.bufferDataIndices bufferSize
       (if hw1.Mapped_Index = E_HARDWARE_MAPPING.EHM_STATIC then GL_STATIC_DRAW
        else GL_DYNAMIC_DRAW)])

/-- `COpenGL3DriverBase::updateHardwareBuffer` (lines 965-997): for each side
whose mapping hint is not `EHM_NEVER`, re-upload exactly when the cached
changed-ID differs from the mesh buffer's current one or the buffer object was
never allocated, recording the mesh's changed-ID first. -/
def updateHardwareBuffer (g : GLNameState) (mb : IMeshBuffer)
    (hw : SHWBufferLink) : GLNameState × SHWBufferLink × List BufferCall :=
  let vertexStep : GLNameState × SHWBufferLink × List BufferCall :=
    if hw.Mapped_Vertex ≠ E_HARDWARE_MAPPING.EHM_NEVER ∧
       (hw.ChangedID_Vertex ≠ mb.changedIdVertex ∨ hw.vbo_verticesID = 0) then
      updateVertexHardwareBuffer g mb { hw with ChangedID_Vertex := mb.changedIdVertex }
    else (g, hw, [])
  let g1 := vertexStep.1
  let hw1 := vertexStep.2.1
  let indexStep : GLNameState × SHWBufferLink × List BufferCall :=
    if hw1.Mapped_Index ≠ E_HARDWARE_MAPPING.EHM_NEVER ∧
       (hw1.ChangedID_Index ≠ mb.changedIdIndex ∨ hw1.vbo_indicesID = 0) then
      updateIndexHardwareBuffer g1 mb { hw1 with ChangedID_Index := mb.changedIdIndex }
    else (g1, hw1, [])
  (indexStep.1, indexStep.2.1, vertexStep.2.2 ++ indexStep.2.2)

/-- How many vertex-side uploads a call trace contains. -/
def vertexUploadCount (calls : List BufferCall) : Nat :=
  (calls.filter fun c =>
    match c with
    | BufferCall.bufferDataVertices _ _ => true
    | BufferCall.bufferSubDataVertices _ => true
    | _ => false).length

/-- How many index-side uploads a call trace contains. -/
def indexUploadCount (calls : List BufferCall) : Nat :=
  (calls.filter fun c =>
    match c with
    | BufferCall.bufferDataIndices _ _ => true
    | BufferCall.bufferSubDataIndices _ => true
    | _ => false).length

theorem uvhb_fields (g : GLNameState) (mb : IMeshBuffer) (hw : SHWBufferLink) :
    (updateVertexHardwareBuffer g mb hw).2.1.ChangedID_Vertex = hw.ChangedID_Vertex ∧
    (updateVertexHardwareBuffer g mb hw).2.1.ChangedID_Index = hw.ChangedID_Index ∧
    (updateVertexHardwareBuffer g mb hw).2.1.Mapped_Vertex = hw.Mapped_Vertex ∧
    (updateVertexHardwareBuffer g mb hw).2.1.Mapped_Index = hw.Mapped_Index ∧
    (updateVertexHardwareBuffer g mb hw).2.1.vbo_indicesID = hw.vbo_indicesID ∧
    (updateVertexHardwareBuffer g mb hw).2.1.vbo_verticesID ≠ 0 := by
  simp only [updateVertexHardwareBuffer]
  split <;> split <;> simp_all

theorem uvhb_counts (g : GLNameState) (mb : IMeshBuffer) (hw : SHWBufferLink) :
    vertexUploadCount (updateVertexHardwareBuffer g mb hw).2.2 = 1 ∧
    indexUploadCount (updateVertexHardwareBuffer g mb hw).2.2 = 0 := by
  simp only [updateVertexHardwareBuffer]
  split <;> split <;> simp [vertexUploadCount, indexUploadCount]

theorem uihb_fields (g : GLNameState) (mb : IMeshBuffer) (hw : SHWBufferLink) :
    (updateIndexHardwareBuffer g mb hw).2.1.ChangedID_Vertex = hw.ChangedID_Vertex ∧
    (updateIndexHardwareBuffer g mb hw).2.1.ChangedID_Index = hw.ChangedID_Index ∧
    (updateIndexHardwareBuffer g mb hw).2.1.Mapped_Vertex = hw.Mapped_Vertex ∧
    (updateIndexHardwareBuffer g mb hw).2.1.Mapped_Index = hw.Mapped_Index ∧
    (updateIndexHardwareBuffer g mb hw).2.1.vbo_verticesID = hw.vbo_verticesID ∧
    (updateIndexHardwareBuffer g mb hw).2.1.vbo_indicesID ≠ 0 := by
  simp only [updateIndexHardwareBuffer]
  split <;> split <;> simp_all

theorem uihb_counts (g : GLNameState) (mb : IMeshBuffer) (hw : SHWBufferLink) :
    indexUploadCount (updateIndexHardwareBuffer g mb hw).2.2 = 1 ∧
    vertexUploadCount (updateIndexHardwareBuffer g mb hw).2.2 = 0 := by
  simp only [updateIndexHardwareBuffer]
  split <;> split <;> simp [vertexUploadCount, indexUploadCount]

theorem vertexUploadCount_append (a b : List BufferCall) :
    vertexUploadCount (a ++ b) = vertexUploadCount a + vertexUploadCount b := by
  simp [vertexUploadCount, List.filter_append]

theorem indexUploadCount_append (a b : List BufferCall) :
    indexUploadCount (a ++ b) = indexUploadCount a + indexUploadCount b := by
  simp [indexUploadCount, List.filter_append]

/-- Joint characterisation of one `updateHardwareBuffer` call: each side's
upload count matches the laziness condition, and for a side whose mapping hint
is not `EHM_NEVER` the resulting link holds the mesh's current changed-ID and
an allocated buffer object. -/
theorem updateHardwareBuffer_char (g : GLNameState) (mb : IMeshBuffer)
    (hw : SHWBufferLink) :
    (updateHardwareBuffer g mb hw).2.1.Mapped_Vertex = hw.Mapped_Vertex ∧
    (updateHardwareBuffer g mb hw).2.1.Mapped_Index = hw.Mapped_Index ∧
    (hw.Mapped_Vertex ≠ E_HARDWARE_MAPPING.EHM_NEVER ∧
        (hw.ChangedID_Vertex ≠ mb.changedIdVertex ∨ hw.vbo_verticesID = 0) →
      vertexUploadCount (updateHardwareBuffer g mb hw).2.2 = 1) ∧
    (¬ (hw.Mapped_Vertex ≠ E_HARDWARE_MAPPING.EHM_NEVER ∧
          (hw.ChangedID_Vertex ≠ mb.changedIdVertex ∨ hw.vbo_verticesID = 0)) →
      vertexUploadCount (updateHardwareBuffer g mb hw).2.2 = 0) ∧
    (hw.Mapped_Index ≠ E_HARDWARE_MAPPING.EHM_NEVER ∧
        (hw.ChangedID_Index ≠ mb.changedIdIndex ∨ hw.vbo_indicesID = 0) →
      indexUploadCount (updateHardwareBuffer g mb hw).2.2 = 1) ∧
    (¬ (hw.Mapped_Index ≠ E_HARDWARE_MAPPING.EHM_NEVER ∧
          (hw.ChangedID_Index ≠ mb.changedIdIndex ∨ hw.vbo_indicesID = 0)) →
      indexUploadCount (updateHardwareBuffer g mb hw).2.2 = 0) ∧
    (hw.Mapped_Vertex ≠ E_HARDWARE_MAPPING.EHM_NEVER →
       (updateHardwareBuffer g mb hw).2.1.ChangedID_Vertex = mb.changedIdVertex ∧
       (updateHardwareBuffer g mb hw).2.1.vbo_verticesID ≠ 0) ∧
    (hw.Mapped_Index ≠ E_HARDWARE_MAPPING.EHM_NEVER →
       (updateHardwareBuffer g mb hw).2.1.ChangedID_Index = mb.changedIdIndex ∧
       (updateHardwareBuffer g mb hw).2.1.vbo_indicesID ≠ 0) := by
  simp only [updateHardwareBuffer]
  by_cases hcv : hw.Mapped_Vertex ≠ E_HARDWARE_MAPPING.EHM_NEVER ∧
      (hw.ChangedID_Vertex ≠ mb.changedIdVertex ∨ hw.vbo_verticesID = 0)
  · rw [if_pos hcv]
    have hf := uvhb_fields g mb { hw with ChangedID_Vertex := mb.changedIdVertex }
    have hcnt := uvhb_counts g mb { hw with ChangedID_Vertex := mb.changedIdVertex }
    set V := updateVertexHardwareBuffer g mb
      { hw with ChangedID_Vertex := mb.changedIdVertex } with hVdef
    obtain ⟨f1, f2, f3, f4, f5, f6⟩ := hf
    obtain ⟨cv1, ci0⟩ := hcnt
    by_cases hci : hw.Mapped_Index ≠ E_HARDWARE_MAPPING.EHM_NEVER ∧
        (hw.ChangedID_Index ≠ mb.changedIdIndex ∨ hw.vbo_indicesID = 0)
    · have hciV : V.2.1.Mapped_Index ≠ E_HARDWARE_MAPPING.EHM_NEVER ∧
          (V.2.1.ChangedID_Index ≠ mb.changedIdIndex ∨ V.2.1.vbo_indicesID = 0) := by
        rw [f2, f4, f5]
        simpa using hci
      rw [if_pos hciV]
      have hif := uihb_fields V.1 mb { V.2.1 with ChangedID_Index := mb.changedIdIndex }
      have hicnt := uihb_counts V.1 mb { V.2.1 with ChangedID_Index := mb.changedIdIndex }
      set W := updateIndexHardwareBuffer V.1 mb
        { V.2.1 with ChangedID_Index := mb.changedIdIndex } with hWdef
      obtain ⟨i1, i2, i3, i4, i5, i6⟩ := hif
      obtain ⟨ii1, iv0⟩ := hicnt
      refine ⟨?_, ?_, ?_, ?_, ?_, ?_, ?_, ?_⟩
      · rw [i3]
        simpa using f3
      · rw [i4]
        simpa using f4
      · intro _
        rw [vertexUploadCount_append, cv1, iv0]
      · intro h
        exact absurd hcv h
      · intro _
        rw [indexUploadCount_append, ci0, ii1]
      · intro h
        exact absurd hci h
      · intro _
        refine ⟨?_, ?_⟩
        · rw [i1]
          simpa using f1
        · rw [i5]
          simpa using f6
      · intro _
        exact ⟨by simpa using i2, by simpa using i6⟩
    · have hciV : ¬ (V.2.1.Mapped_Index ≠ E_HARDWARE_MAPPING.EHM_NEVER ∧
          (V.2.1.ChangedID_Index ≠ mb.changedIdIndex ∨ V.2.1.vbo_indicesID = 0)) := by
        rw [f2, f4, f5]
        simpa using hci
      rw [if_neg hciV]
      refine ⟨?_, ?_, ?_, ?_, ?_, ?_, ?_, ?_⟩
      · simpa using f3
      · simpa using f4
      · intro _
        simpa [vertexUploadCount_append, vertexUploadCount] using cv1
      · intro h
        exact absurd hcv h
      · intro h
        exact absurd h hci
      · intro _
        simpa [indexUploadCount_append, indexUploadCount] using ci0
      · intro _
        refine ⟨by simpa using f1, f6⟩
      · intro hmi
        rw [f2, f5]
        have := hci
        push_neg at this
        exact this hmi
  · rw [if_neg hcv]
    dsimp only
    by_cases hci : hw.Mapped_Index ≠ E_HARDWARE_MAPPING.EHM_NEVER ∧
        (hw.ChangedID_Index ≠ mb.changedIdIndex ∨ hw.vbo_indicesID = 0)
    · rw [if_pos hci]
      have hif := uihb_fields g mb { hw with ChangedID_Index := mb.changedIdIndex }
      have hicnt := uihb_counts g mb { hw with ChangedID_Index := mb.changedIdIndex }
      set W := updateIndexHardwareBuffer g mb
        { hw with ChangedID_Index := mb.changedIdIndex } with hWdef
      obtain ⟨i1, i2, i3, i4, i5, i6⟩ := hif
      obtain ⟨ii1, iv0⟩ := hicnt
      refine ⟨?_, ?_, ?_, ?_, ?_, ?_, ?_, ?_⟩
      · simpa using i3
      · simpa using i4
      · intro h
        exact absurd h hcv
      · intro _
        simpa [vertexUploadCount_append, vertexUploadCount] using iv0
      · intro _
        simpa [indexUploadCount_append, indexUploadCount] using ii1
      · intro h
        exact absurd hci h
      · intro hmv
        have := hcv
        push_neg at this
        refine ⟨?_, ?_⟩
        · rw [i1]
          simpa using (this hmv).1
        · rw [i5]
          simpa using (this hmv).2
      · intro _
        exact ⟨by simpa using i2, by simpa using i6⟩
    · rw [if_neg hci]
      refine ⟨rfl, rfl, ?_, ?_, ?_, ?_, ?_, ?_⟩
      · intro h
        exact absurd h hcv
      · intro _
        simp [vertexUploadCount]
      · intro h
        exact absurd h hci
      · intro _
        simp [indexUploadCount]
      · intro hmv
        have := hcv
        push_neg at this
        exact this hmv
      · intro hmi
        have := hci
        push_neg at this
        exact this hmi

/-- C4: for a link whose vertex (resp. index) side has a mapping hint other
than never, `updateHardwareBuffer` re-uploads that side exactly when the
cached changed-ID differs from the mesh buffer's current changed-ID or the
GPU buffer object for that side was never allocated; afterwards the cached
changed-ID equals the mesh's current one, so a further call with no mesh
mutation performs zero re-uploads of that side. -/
theorem updateHardwareBuffer_lazy_reupload (g : GLNameState) (mb : IMeshBuffer)
    (hw : SHWBufferLink) :
    (hw.Mapped_Vertex ≠ E_HARDWARE_MAPPING.EHM_NEVER →
       (vertexUploadCount (updateHardwareBuffer g mb hw).2.2 = 1 ↔
          hw.ChangedID_Vertex ≠ mb.changedIdVertex ∨ hw.vbo_verticesID = 0) ∧
       (updateHardwareBuffer g mb hw).2.1.ChangedID_Vertex = mb.changedIdVertex ∧
       vertexUploadCount
         (updateHardwareBuffer (updateHardwareBuffer g mb hw).1 mb
            (updateHardwareBuffer g mb hw).2.1).2.2 = 0) ∧
    (hw.Mapped_Index ≠ E_HARDWARE_MAPPING.EHM_NEVER →
       (indexUploadCount (updateHardwareBuffer g mb hw).2.2 = 1 ↔
          hw.ChangedID_Index ≠ mb.changedIdIndex ∨ hw.vbo_indicesID = 0) ∧
       (updateHardwareBuffer g mb hw).2.1.ChangedID_Index = mb.changedIdIndex ∧
       indexUploadCount
         (updateHardwareBuffer (updateHardwareBuffer g mb hw).1 mb
            (updateHardwareBuffer g mb hw).2.1).2.2 = 0) := by
  obtain ⟨mV, mI, v1, v0, ix1, ix0, rv, ri⟩ := updateHardwareBuffer_char g mb hw
  obtain ⟨mV2, mI2, v12, v02, ix12, ix02, rv2, ri2⟩ :=
    updateHardwareBuffer_char (updateHardwareBuffer g mb hw).1 mb
      (updateHardwareBuffer g mb hw).2.1
  constructor
  · intro hmv
    obtain ⟨hcv, hvbo⟩ := rv hmv
    refine ⟨⟨?_, ?_⟩, hcv, ?_⟩
    · intro hone
      by_contra hcond
      have := v0 (by
        intro hand
        exact hcond hand.2)
      omega
    · intro hcond
      exact v1 ⟨hmv, hcond⟩
    · refine v02 ?_
      intro hand
      rcases hand.2 with hne | hzero
      · exact hne hcv
      · exact hvbo hzero
  · intro hmi
    obtain ⟨hci, hvbo⟩ := ri hmi
    refine ⟨⟨?_, ?_⟩, hci, ?_⟩
    · intro hone
      by_contra hcond
      have := ix0 (by
        intro hand
        exact hcond hand.2)
      omega
    · intro hcond
      exact ix1 ⟨hmi, hcond⟩
    · refine ix02 ?_
      intro hand
      rcases hand.2 with hne | hzero
      · exact hne hci
      · exact hvbo hzero

/-- A mesh buffer whose vertex data was mutated once (current vertex
changed-ID 2) relative to the link below. -/
def meshBufferEx : IMeshBuffer where
  vertexCount := 4
  vertexPitch := 36
  indexCount := 6
  indexType := E_INDEX_TYPE.EIT_16BIT
  changedIdVertex := 2
  changedIdIndex := 1
  mappingHintVertex := E_HARDWARE_MAPPING.EHM_STATIC
  mappingHintIndex := E_HARDWARE_MAPPING.EHM_STATIC

/-- A hardware buffer link created before the mutation above: cached vertex
changed-ID 1, buffers allocated. -/
def hwBufferLinkEx : SHWBufferLink where
  ChangedID_Vertex := 1
  ChangedID_Index := 1
  Mapped_Vertex := E_HARDWARE_MAPPING.EHM_STATIC
  Mapped_Index := E_HARDWARE_MAPPING.EHM_STATIC
  vbo_verticesID := 7
  vbo_indicesID := 8
  vbo_verticesSize := 144
  vbo_indicesSize := 12

/-- C4 witness: after one vertex mutation the next update performs exactly one
vertex re-upload and a further update with no mutation performs zero. -/
theorem updateHardwareBuffer_lazy_witness :
    vertexUploadCount (updateHardwareBuffer ⟨0⟩ meshBufferEx hwBufferLinkEx).2.2 = 1 ∧
    vertexUploadCount
      (updateHardwareBuffer (updateHardwareBuffer ⟨0⟩ meshBufferEx hwBufferLinkEx).1
         meshBufferEx
         (updateHardwareBuffer ⟨0⟩ meshBufferEx hwBufferLinkEx).2.1).2.2 = 0 :=
  ⟨(((updateHardwareBuffer_lazy_reupload ⟨0⟩ meshBufferEx hwBufferLinkEx).1
      (by decide)).1).mpr (by decide),
   ((updateHardwareBuffer_lazy_reupload ⟨0⟩ meshBufferEx hwBufferLinkEx).1
      (by decide)).2.2⟩

/-! ## Driver core render-state machine -/

/-- `E_RENDER_MODE` of the driver core. -/
inductive E_RENDER_MODE where
  | ERM_NONE
  | ERM_2D
  | ERM_3D
  deriving DecidableEq, Repr

/-- Which of the two 2D renderers (`MaterialRenderer2DTexture` or
`MaterialRenderer2DNoTexture`) is meant. -/
inductive Renderer2DKind where
  | withTexture
  | withoutTexture
  deriving DecidableEq, Repr

def GL_SRC_ALPHA : Nat := 0x0302

def GL_ONE_MINUS_SRC_ALPHA : Nat := 0x0303

def GL_FUNC_ADD : Nat := 0x8006

def GL_POINTS : Nat := 0

def GL_LINES : Nat := 1

def GL_LINE_LOOP : Nat := 2

def GL_LINE_STRIP : Nat := 3

def GL_TRIANGLES : Nat := 4

def GL_TRIANGLE_STRIP : Nat := 5

def GL_TRIANGLE_FAN : Nat := 6

def GL_UNSIGNED_SHORT : Nat := 0x1403

def GL_UNSIGNED_INT : Nat := 0x1405

/-- The externally observable actions of the following render-state paths:
requests to the cache handler's blend setters (which deduplicate the actual
GL calls), material renderer callback invocations, and GL draw commands. -/
inductive DriverEvent where
  | cacheSetBlend (enabled : Bool)
  | cacheSetBlendFunc (src dst : Nat)
  | cacheSetBlendEquation (mode : Nat)
  | onUnsetMaterialCall (materialType : Nat)
  | onSetMaterialCall (materialType : Nat)
  | onRenderCall (materialType : Nat)
  | onUnsetMaterial2DCall
  | onSetMaterial2DCall (renderer : Renderer2DKind)
  | onRender2DCall (renderer : Renderer2DKind)
  | setTextureRenderStatesCall
  | glDrawArraysCall (mode first count : Nat)
  | glDrawElementsCall (mode count indexSize : Nat)
  deriving DecidableEq, Repr

/-- `scene::E_PRIMITIVE_TYPE`. -/
inductive E_PRIMITIVE_TYPE where
  | EPT_POINTS
  | EPT_POINT_SPRITES
  | EPT_LINE_STRIP
  | EPT_LINE_LOOP
  | EPT_LINES
  | EPT_TRIANGLE_STRIP
  | EPT_TRIANGLE_FAN
  | EPT_TRIANGLES
  deriving DecidableEq, Repr

/-- The driver-core fields the render-mode transitions read and write.
`materialRendererCount` is `MaterialRenderers.size()`; `cacheTexture0` records
whether texture-cache slot 0 holds a texture; `featureElementIndexUint` is the
`IRR_GL_OES_element_index_uint` capability. -/
structure DriverState where
  LockRenderStateMode : Bool
  CurrentRenderMode : E_RENDER_MODE
  ResetRenderStates : Bool
  Material : SMaterial
  LastMaterial : SMaterial
  MaterialRenderer2DActive : Option Renderer2DKind
  materialRendererCount : Nat
  cacheTexture0 : Bool
  featureElementIndexUint : Bool
  Transformation3DChanged : Bool
  deriving DecidableEq, Repr

/-- `COpenGL3DriverBase::setRenderStates3DMode` (lines 1648-1690).  When not
locked: entering 3D mode from another mode resets the cached blend state and
forces a render-state reset; when a reset is pending or the material changed,
the previously active renderer is unset (the active 2D renderer when coming
from 2D, otherwise the previous material type's renderer when the type
changed and is in range), the new material's renderer is set, the last
material is updated and the reset flag cleared; the selected renderer's
`OnRender` then runs on every call, and the mode becomes 3D. -/
def setRenderStates3DMode (st : DriverState) : DriverState × List DriverEvent :=
  if st.LockRenderStateMode then (st, [])
  else
    let modeEvs : List DriverEvent :=
      if st.CurrentRenderMode ≠ E_RENDER_MODE.ERM_3D then
        [DriverEvent.cacheSetBlend false,
         DriverEvent.cacheSetBlendFunc GL_SRC_ALPHA GL_ONE_MINUS_SRC_ALPHA]
      else []
    let st0 :=
      if st.CurrentRenderMode ≠ E_RENDER_MODE.ERM_3D then
        { st with ResetRenderStates := true }
      else st
    let matStep : DriverState × List DriverEvent :=
      if st0.ResetRenderStates = true ∨ st0.LastMaterial ≠ st0.Material then
        let unsetStep : DriverState × List DriverEvent :=
          if st0.CurrentRenderMode = E_RENDER_MODE.ERM_2D ∧
             st0.MaterialRenderer2DActive.isSome then
            ({ st0 with MaterialRenderer2DActive := none },
             [DriverEvent.onUnsetMaterial2DCall])
          else if st0.LastMaterial.MaterialType ≠ st0.Material.MaterialType ∧
                  st0.LastMaterial.MaterialType < st0.materialRendererCount then
            (st0, [DriverEvent.onUnsetMaterialCall st0.LastMaterial.MaterialType])
          else (st0, [])
        let setEvs : List DriverEvent :=
          if st0.Material.MaterialType < st0.materialRendererCount then
            [DriverEvent.onSetMaterialCall st0.Material.MaterialType]
          else []
        ({ unsetStep.1 with LastMaterial := st0.Material, ResetRenderStates := false },
         unsetStep.2 ++ setEvs)
      else (st0, [])
    let renderEvs : List DriverEvent :=
      if st.Material.MaterialType < st.materialRendererCount then
        [DriverEvent.onRenderCall st.Material.MaterialType]
      else []
    ({ matStep.1 with CurrentRenderMode := E_RENDER_MODE.ERM_3D },
     modeEvs ++ matStep.2 ++ renderEvs)

def getMaximalPrimitiveCount : Nat := 65535

/-- Modelled from the spec: `CNullDriver::checkPrimitiveCount` (CNullDriver is
not among this repository's source files) — a primitive count exceeding the
maximum representable primitive count is rejected; no exception is raised. -/
def checkPrimitiveCount (primitiveCount : Nat) : Bool :=
  primitiveCount ≤ getMaximalPrimitiveCount

/-- `COpenGL3DriverBase::drawVertexPrimitiveList` (lines 1108-1177): a zero
primitive or vertex count returns immediately; a count rejected by
`checkPrimitiveCount` returns immediately; otherwise the 3D render states
are made current, the vertex attributes are bound and the draw command for
the primitive topology is issued with the selected index width. -/
def drawVertexPrimitiveList (st : DriverState) (vertexCount primitiveCount : Nat)
    (pType : E_PRIMITIVE_TYPE) (iType : E_INDEX_TYPE) :
    DriverState × List DriverEvent :=
  if primitiveCount = 0 ∨ vertexCount = 0 then (st, [])
  else if checkPrimitiveCount primitiveCount = false then (st, [])
  else
    let rsStep := setRenderStates3DMode st
    let indexSize :=
      match iType with
      | E_INDEX_TYPE.EIT_16BIT => GL_UNSIGNED_SHORT
      | E_INDEX_TYPE.EIT_32BIT =>
          if st.featureElementIndexUint then GL_UNSIGNED_INT else GL_UNSIGNED_SHORT
    let drawEvs : List DriverEvent :=
      match pType with
      | E_PRIMITIVE_TYPE.EPT_POINTS =>
          [DriverEvent.glDrawArraysCall GL_POINTS 0 primitiveCount]
      | E_PRIMITIVE_TYPE.EPT_POINT_SPRITES =>
          [DriverEvent.glDrawArraysCall GL_POINTS 0 primitiveCount]
      | E_PRIMITIVE_TYPE.EPT_LINE_STRIP =>
          [DriverEvent.glDrawElementsCall GL_LINE_STRIP (primitiveCount + 1) indexSize]
      | E_PRIMITIVE_TYPE.EPT_LINE_LOOP =>
          [DriverEvent.glDrawElementsCall GL_LINE_LOOP primitiveCount indexSize]
      | E_PRIMITIVE_TYPE.EPT_LINES =>
          [DriverEvent.glDrawElementsCall GL_LINES (primitiveCount * 2) indexSize]
      | E_PRIMITIVE_TYPE.EPT_TRIANGLE_STRIP =>
          [DriverEvent.glDrawElementsCall GL_TRIANGLE_STRIP (primitiveCount + 2) indexSize]
      | E_PRIMITIVE_TYPE.EPT_TRIANGLE_FAN =>
          [DriverEvent.glDrawElementsCall GL_TRIANGLE_FAN (primitiveCount + 2) indexSize]
      | E_PRIMITIVE_TYPE.EPT_TRIANGLES =>
          [DriverEvent.glDrawElementsCall
            (if rsStep.1.LastMaterial.Wireframe then GL_LINES
             else if rsStep.1.LastMaterial.PointCloud then GL_POINTS
             else GL_TRIANGLES)
            (primitiveCount * 3) indexSize]
    (rsStep.1, rsStep.2 ++ drawEvs)

/-- The 2D renderer variant `setRenderStates2DMode` selects:
`MaterialRenderer2DTexture` when a texture is used, else
`MaterialRenderer2DNoTexture`. -/
def renderer2DFor (texture : Bool) : Renderer2DKind :=
  if texture then Renderer2DKind.withTexture else Renderer2DKind.withoutTexture

/-- The mode-transition prefix of `setRenderStates2DMode` (lines 1941-1955):
leaving 3D mode unsets the last 3D material renderer (when its type is in
range); staying in 2D but switching 2D renderer variants unsets the
previously active 2D renderer. -/
def unset2DStep (st : DriverState) (nextActive : Renderer2DKind) :
    DriverState × List DriverEvent :=
  if st.CurrentRenderMode ≠ E_RENDER_MODE.ERM_2D then
    ({ st with CurrentRenderMode := E_RENDER_MODE.ERM_2D },
     if st.CurrentRenderMode = E_RENDER_MODE.ERM_3D ∧
        st.LastMaterial.MaterialType < st.materialRendererCount then
       [DriverEvent.onUnsetMaterialCall st.LastMaterial.MaterialType]
     else [])
  else
    (st,
     match st.MaterialRenderer2DActive with
     | some r =>
         if r ≠ nextActive then [DriverEvent.onUnsetMaterial2DCall] else []
     | none => [])

/-- The blend refresh of `setRenderStates2DMode` (lines 1963-1973): alpha
blending is enabled exactly when alpha is requested or a texture with an
alpha channel is used (`alphaChannel &= texture` first), with the
SRC_ALPHA / ONE_MINUS_SRC_ALPHA function and the additive equation; otherwise
blending is disabled. -/
def blend2DTrace (alpha texture alphaChannel : Bool) : List DriverEvent :=
  if (alphaChannel && texture) || alpha then
    [DriverEvent.cacheSetBlend true,
     DriverEvent.cacheSetBlendFunc GL_SRC_ALPHA GL_ONE_MINUS_SRC_ALPHA,
     DriverEvent.cacheSetBlendEquation GL_FUNC_ADD]
  else [DriverEvent.cacheSetBlend false]

/-- The texture-state refresh of `setRenderStates2DMode` (lines 1978-1984). -/
def tex2DTrace (texture : Bool) : List DriverEvent :=
  if texture then [DriverEvent.setTextureRenderStatesCall] else []

/-- `COpenGL3DriverBase::setRenderStates2DMode` (lines 1934-1987).  When not
locked: run the mode-transition unset step, set the material on the newly
selected 2D renderer, update the last material, refresh the blend state from
the alpha/texture/alpha-channel flags, refresh texture slot 0 of the material
from the texture cache, reset the texture-0 transform (marking 3D transforms
changed), refresh the texture render states when a texture is used, and
invoke the selected renderer's `OnRender`. -/
def setRenderStates2DMode (st : DriverState) (alpha texture alphaChannel : Bool) :
    DriverState × List DriverEvent :=
  if st.LockRenderStateMode then (st, [])
  else
    let nextActive := renderer2DFor texture
    let unsetStep := unset2DStep st nextActive
    let st1 := { unsetStep.1 with MaterialRenderer2DActive := some nextActive }
    let st2 := { st1 with LastMaterial := st1.Material }
    let st3 := { st2 with
      Material := { st2.Material with Texture0 := st2.cacheTexture0 }
      Transformation3DChanged := true }
    (st3,
     unsetStep.2 ++ [DriverEvent.onSetMaterial2DCall nextActive] ++
       blend2DTrace alpha texture alphaChannel ++
       tex2DTrace texture ++ [DriverEvent.onRender2DCall nextActive])

/-- A material value with material type 0 and everything else clear. -/
def materialEx : SMaterial where
  MaterialType := 0
  MaterialTypeParam := 0
  Texture0 := false
  FogEnable := false
  Lighting := false
  Wireframe := false
  PointCloud := false
  otherStateFields := 0

/-- A driver state sitting in 3D mode with nothing pending; the driver
registers 19 material renderers at initialisation. -/
def driverStateEx : DriverState where
  LockRenderStateMode := false
  CurrentRenderMode := E_RENDER_MODE.ERM_3D
  ResetRenderStates := false
  Material := materialEx
  LastMaterial := materialEx
  MaterialRenderer2DActive := none
  materialRendererCount := 19
  cacheTexture0 := false
  featureElementIndexUint := false
  Transformation3DChanged := false

/-- C2: `drawVertexPrimitiveList` with a zero primitive count, or a primitive
count above `getMaximalPrimitiveCount`, is a no-op: the state is unchanged and
no GL command or render-state transition is issued. -/
theorem drawVertexPrimitiveList_rejects (st : DriverState)
    (vertexCount primitiveCount : Nat)
    (pType : E_PRIMITIVE_TYPE) (iType : E_INDEX_TYPE)
    (h : primitiveCount = 0 ∨ getMaximalPrimitiveCount < primitiveCount) :
    drawVertexPrimitiveList st vertexCount primitiveCount pType iType = (st, []) := by
  rcases h with h0 | hbig
  · simp [drawVertexPrimitiveList, h0]
  · by_cases hv : primitiveCount = 0 ∨ vertexCount = 0
    · simp [drawVertexPrimitiveList, hv]
    · have hc : checkPrimitiveCount primitiveCount = false := by
        simp only [checkPrimitiveCount, decide_eq_false_iff_not, not_le]
        exact hbig
      simp [drawVertexPrimitiveList, hv, hc]

/-- C2 witness: a zero-count call and a 65536-count call both leave the
driver untouched and draw nothing. -/
theorem drawVertexPrimitiveList_rejects_witness :
    drawVertexPrimitiveList driverStateEx 4 0
        E_PRIMITIVE_TYPE.EPT_TRIANGLES E_INDEX_TYPE.EIT_16BIT = (driverStateEx, []) ∧
    drawVertexPrimitiveList driverStateEx 4 65536
        E_PRIMITIVE_TYPE.EPT_TRIANGLES E_INDEX_TYPE.EIT_16BIT = (driverStateEx, []) :=
  ⟨drawVertexPrimitiveList_rejects driverStateEx 4 0 _ _ (Or.inl rfl),
   drawVertexPrimitiveList_rejects driverStateEx 4 65536 _ _ (Or.inr (by decide))⟩

/-- A driver state in 3D mode with a render-state reset pending and the
active material equal to the last-rendered one. -/
def driverStateResetPending : DriverState :=
  { driverStateEx with ResetRenderStates := true }

/-- C1 counterexample: with a reset pending, the same material as last
rendered and the driver already in 3D mode, `setRenderStates3DMode` runs the
set sequence but invokes no `OnUnsetMaterial` at all — neither on the
previous material's renderer nor on a 2D renderer — contradicting the claim
that the previous renderer receives `OnUnsetMaterial` whenever a reset is
pending. -/
theorem setRenderStates3DMode_counterexample :
    driverStateResetPending.LockRenderStateMode = false ∧
    driverStateResetPending.ResetRenderStates = true ∧
    (setRenderStates3DMode driverStateResetPending).2 =
      [DriverEvent.onSetMaterialCall 0, DriverEvent.onRenderCall 0] ∧
    DriverEvent.onUnsetMaterialCall
        driverStateResetPending.LastMaterial.MaterialType ∉
      (setRenderStates3DMode driverStateResetPending).2 ∧
    DriverEvent.onUnsetMaterial2DCall ∉
      (setRenderStates3DMode driverStateResetPending).2 := by
  decide

/-- C1 (amended): with the render-state mode not locked and the active
material type in range, every `setRenderStates3DMode` call invokes `OnRender`
on the selected renderer and ends in 3D mode; when the active material equals
the last-rendered one and no reset is pending (and the mode was already 3D)
the call performs only that `OnRender`; when the material differs, a reset is
pending or the mode was not 3D, the new material's renderer receives
`OnSetMaterial`, the last material is updated and the reset flag cleared,
while `OnUnsetMaterial` goes to the active 2D renderer when coming from 2D
mode with one active, and otherwise to the previous material's renderer
exactly when the previous material type differs from the new one and is in
range. -/
theorem setRenderStates3DMode_amended (st : DriverState)
    (hlock : st.LockRenderStateMode = false)
    (hmt : st.Material.MaterialType < st.materialRendererCount) :
    DriverEvent.onRenderCall st.Material.MaterialType ∈ (setRenderStates3DMode st).2 ∧
    (setRenderStates3DMode st).1.CurrentRenderMode = E_RENDER_MODE.ERM_3D ∧
    (¬ (st.CurrentRenderMode ≠ E_RENDER_MODE.ERM_3D ∨ st.ResetRenderStates = true ∨
          st.LastMaterial ≠ st.Material) →
       (setRenderStates3DMode st).2 =
         [DriverEvent.onRenderCall st.Material.MaterialType]) ∧
    ((st.CurrentRenderMode ≠ E_RENDER_MODE.ERM_3D ∨ st.ResetRenderStates = true ∨
          st.LastMaterial ≠ st.Material) →
       DriverEvent.onSetMaterialCall st.Material.MaterialType ∈
           (setRenderStates3DMode st).2 ∧
       (setRenderStates3DMode st).1.LastMaterial = st.Material ∧
       (setRenderStates3DMode st).1.ResetRenderStates = false ∧
       (st.CurrentRenderMode = E_RENDER_MODE.ERM_2D ∧
            st.MaterialRenderer2DActive.isSome = true →
          DriverEvent.onUnsetMaterial2DCall ∈ (setRenderStates3DMode st).2 ∧
          (setRenderStates3DMode st).1.MaterialRenderer2DActive = none) ∧
       (¬ (st.CurrentRenderMode = E_RENDER_MODE.ERM_2D ∧
             st.MaterialRenderer2DActive.isSome = true) →
          (DriverEvent.onUnsetMaterialCall st.LastMaterial.MaterialType ∈
               (setRenderStates3DMode st).2 ↔
             st.LastMaterial.MaterialType ≠ st.Material.MaterialType ∧
             st.LastMaterial.MaterialType < st.materialRendererCount))) := by
  unfold setRenderStates3DMode
  rw [if_neg (by simp [hlock])]
  by_cases hmode : st.CurrentRenderMode = E_RENDER_MODE.ERM_3D <;>
    by_cases hreset : st.ResetRenderStates = true <;>
    by_cases hlastm : st.LastMaterial = st.Material <;>
    by_cases h2d : st.CurrentRenderMode = E_RENDER_MODE.ERM_2D ∧
      st.MaterialRenderer2DActive.isSome = true <;>
    by_cases hneq : st.LastMaterial.MaterialType = st.Material.MaterialType <;>
    by_cases hlt : st.LastMaterial.MaterialType < st.materialRendererCount <;>
    simp_all [List.mem_append, List.mem_cons, List.not_mem_nil] <;>
    (try (split <;> simp_all)) <;>
    (rw [if_neg (by omega)]; simp; omega)

/-- A driver state in 2D mode with the textured 2D renderer active. -/
def driverState2DEx : DriverState :=
  { driverStateEx with
    CurrentRenderMode := E_RENDER_MODE.ERM_2D
    MaterialRenderer2DActive := some Renderer2DKind.withTexture }

/-- C1 witness: entering 3D mode from 2D mode with an active 2D renderer
unsets that 2D renderer, sets the new material's renderer and renders. -/
theorem setRenderStates3DMode_amended_witness :
    DriverEvent.onRenderCall 0 ∈ (setRenderStates3DMode driverState2DEx).2 ∧
    DriverEvent.onSetMaterialCall 0 ∈ (setRenderStates3DMode driverState2DEx).2 ∧
    DriverEvent.onUnsetMaterial2DCall ∈ (setRenderStates3DMode driverState2DEx).2 :=
  ⟨(setRenderStates3DMode_amended driverState2DEx rfl (by decide)).1,
   ((setRenderStates3DMode_amended driverState2DEx rfl (by decide)).2.2.2
      (Or.inl (by decide))).1,
   (((setRenderStates3DMode_amended driverState2DEx rfl (by decide)).2.2.2
      (Or.inl (by decide))).2.2.2.1 (by decide)).1⟩

theorem unset2DStep_shape (st : DriverState) (k : Renderer2DKind) :
    (unset2DStep st k).2 = [] ∨
    (unset2DStep st k).2 =
      [DriverEvent.onUnsetMaterialCall st.LastMaterial.MaterialType] ∨
    (unset2DStep st k).2 = [DriverEvent.onUnsetMaterial2DCall] := by
  unfold unset2DStep
  split
  · split
    · exact Or.inr (Or.inl rfl)
    · exact Or.inl rfl
  · cases hM : st.MaterialRenderer2DActive with
    | none => simp [hM]
    | some r =>
        simp only [hM]
        split
        · exact Or.inr (Or.inr rfl)
        · exact Or.inl rfl

/-- C5: with the render-state mode not locked, `setRenderStates2DMode`
requests blending on (with the SRC_ALPHA / ONE_MINUS_SRC_ALPHA function and
additive equation) exactly when alpha is requested or a texture with an alpha
channel is used, and requests blending off otherwise; the newly selected 2D
renderer becomes active and receives `OnSetMaterial` and, after all state
refreshes, `OnRender`. -/
theorem setRenderStates2DMode_spec (st : DriverState)
    (alpha texture alphaChannel : Bool)
    (hlock : st.LockRenderStateMode = false) :
    ((DriverEvent.cacheSetBlend true ∈
          (setRenderStates2DMode st alpha texture alphaChannel).2 ∧
      DriverEvent.cacheSetBlendFunc GL_SRC_ALPHA GL_ONE_MINUS_SRC_ALPHA ∈
          (setRenderStates2DMode st alpha texture alphaChannel).2 ∧
      DriverEvent.cacheSetBlendEquation GL_FUNC_ADD ∈
          (setRenderStates2DMode st alpha texture alphaChannel).2) ↔
        (alpha = true ∨ (texture = true ∧ alphaChannel = true))) ∧
    (DriverEvent.cacheSetBlend false ∈
          (setRenderStates2DMode st alpha texture alphaChannel).2 ↔
        ¬ (alpha = true ∨ (texture = true ∧ alphaChannel = true))) ∧
    (setRenderStates2DMode st alpha texture alphaChannel).1.MaterialRenderer2DActive =
      some (renderer2DFor texture) ∧
    ∃ pre mid,
      (setRenderStates2DMode st alpha texture alphaChannel).2 =
        pre ++ DriverEvent.onSetMaterial2DCall (renderer2DFor texture) ::
          (mid ++ [DriverEvent.onRender2DCall (renderer2DFor texture)]) := by
  have hsh := unset2DStep_shape st (renderer2DFor texture)
  simp only [setRenderStates2DMode, hlock, Bool.false_eq_true, if_false]
  refine ⟨?_, ?_, ?_, ?_⟩
  · rcases hsh with hsh | hsh | hsh <;>
      rw [hsh] <;>
      cases alpha <;> cases texture <;> cases alphaChannel <;>
      simp [blend2DTrace, tex2DTrace, renderer2DFor]
  · rcases hsh with hsh | hsh | hsh <;>
      rw [hsh] <;>
      cases alpha <;> cases texture <;> cases alphaChannel <;>
      simp [blend2DTrace, tex2DTrace, renderer2DFor]
  · trivial
  · exact ⟨(unset2DStep st (renderer2DFor texture)).2,
      blend2DTrace alpha texture alphaChannel ++ tex2DTrace texture, by simp⟩

/-- C5 witness: drawing with a texture that has an alpha channel enables
blending and activates the textured 2D renderer. -/
theorem setRenderStates2DMode_spec_witness :
    (DriverEvent.cacheSetBlend true ∈
        (setRenderStates2DMode driverStateEx false true true).2 ∧
     DriverEvent.cacheSetBlendFunc GL_SRC_ALPHA GL_ONE_MINUS_SRC_ALPHA ∈
        (setRenderStates2DMode driverStateEx false true true).2 ∧
     DriverEvent.cacheSetBlendEquation GL_FUNC_ADD ∈
        (setRenderStates2DMode driverStateEx false true true).2) ∧
    (setRenderStates2DMode driverStateEx false true true).1.MaterialRenderer2DActive =
      some (renderer2DFor true) :=
  ⟨(setRenderStates2DMode_spec driverStateEx false true true rfl).1.mpr
      (Or.inr ⟨rfl, rfl⟩),
   (setRenderStates2DMode_spec driverStateEx false true true rfl).2.2.1⟩

end IrrVideo
